import Mathlib

/-!
Shallow embedding of the asset CRUD handlers (Azure Functions, Python) in
`src/`: `assets_create`, `assets_get`, `assets_list`, `assets_update`,
`assets_delete` and the shared auth gate `shared/auth.py`.

Modelling choices:
* JSON values are the inductive `JVal`; JSON objects / Python dicts are
  insertion-ordered association lists (`Dict`) with Python `dict` semantics
  for item assignment (`dinsert`) and `dict.update` (`dupdate`).
* Python truthiness is `pyTruthy`; Python `int(x)` is `pyInt` (ValueError /
  TypeError become `none`).
* The relational table `file_metadata` is a list of `SqlRow`; the
  `created_at` timestamp (`SYSUTCDATETIME()`) is an abstract `Nat` tick.
* External store calls that can raise are parameterised by a
  `StoreOutcome` (`ok` / `fail`); each handler is a pure function of the
  request, the modelled store states and those outcomes, returning a
  result structure that records the HTTP status, the response body and
  which store operations were attempted.
-/

inductive JVal where
  | jstr (s : String)
  | jint (n : Int)
  | jbool (b : Bool)
  | jnull
deriving DecidableEq, Repr

open JVal

/-- Python truthiness (`bool(v)`) on our JSON values: empty string, zero,
`False` and `None` are falsy. -/
def pyTruthy : JVal → Bool
  | .jstr s => !(s = "")
  | .jint n => !(n = 0)
  | .jbool b => b
  | .jnull => false

/-- Truthiness of `d.get(key)`: a missing key yields Python `None`, falsy. -/
def truthyOpt : Option JVal → Bool
  | none => false
  | some v => pyTruthy v

/-- Decimal digits to the number they denote. -/
def digitsToNat (cs : List Char) : Nat :=
  cs.foldl (fun acc ch => acc * 10 + (ch.toNat - 48)) 0

/-- Python `int(s)` on a string: optional surrounding whitespace, optional
sign, then one or more decimal digits; anything else raises `ValueError`
(modelled as `none`). -/
def parseIntStr (s : String) : Option Int :=
  let t := ((s.toList.dropWhile Char.isWhitespace).reverse.dropWhile
    Char.isWhitespace).reverse
  match t with
  | '-' :: core =>
      if !core.isEmpty && core.all Char.isDigit then some (-(digitsToNat core : Int))
      else none
  | '+' :: core =>
      if !core.isEmpty && core.all Char.isDigit then some ((digitsToNat core : Int))
      else none
  | core =>
      if !core.isEmpty && core.all Char.isDigit then some ((digitsToNat core : Int))
      else none

/-- Python `int(v)`: ints pass through, bools coerce, strings parse,
`None` raises `TypeError` (`none`). -/
def pyInt : JVal → Option Int
  | .jint n => some n
  | .jbool b => some (if b then 1 else 0)
  | .jstr s => parseIntStr s
  | .jnull => none

/-- `int(d.get(key))` where a missing key gives `None` hence `TypeError`. -/
def pyIntOpt : Option JVal → Option Int
  | none => none
  | some v => pyInt v

/-- A Python dict / JSON object: insertion-ordered association list. -/
abbrev Dict := List (String × JVal)

/-- Python dict lookup `d.get(key)` (keys in a Python dict are unique, so
first match is the match). -/
def dget : Dict → String → Option JVal
  | [], _ => none
  | (k, v) :: rest, key => if k = key then some v else dget rest key

/-- Python item assignment `d[key] = v`: replace in place if present,
else append. -/
def dinsert : Dict → String → JVal → Dict
  | [], key, v => [(key, v)]
  | (k, w) :: rest, key, v =>
      if k = key then (key, v) :: rest else (k, w) :: dinsert rest key v

/-- Python `d.update(other)`: assign each item of `other` into `d` in order. -/
def dupdate (d other : Dict) : Dict :=
  other.foldl (fun acc kv => dinsert acc kv.1 kv.2) d

theorem dget_dinsert (d : Dict) (k : String) (v : JVal) (key : String) :
    dget (dinsert d k v) key = if key = k then some v else dget d key := by
  induction d with
  | nil =>
      by_cases h : k = key
      · simp [dinsert, dget, h]
      · have h' : ¬key = k := fun hh => h hh.symm
        simp [dinsert, dget, h, h']
  | cons kv rest ih =>
      obtain ⟨k', w⟩ := kv
      by_cases hk : k' = k
      · subst hk
        by_cases h : k' = key
        · simp [dinsert, dget, h]
        · have h' : ¬key = k' := fun hh => h hh.symm
          simp [dinsert, dget, h, h']
      · by_cases h1 : k' = key
        · subst h1
          simp [dinsert, dget, hk]
        · by_cases h2 : key = k
          · subst h2
            simp [dinsert, dget, hk, h1, ih]
          · simp [dinsert, dget, hk, h1, h2, ih]

theorem dget_eq_none_of_not_mem (d : Dict) (key : String)
    (h : key ∉ d.map Prod.fst) : dget d key = none := by
  induction d with
  | nil => rfl
  | cons kv rest ih =>
      obtain ⟨k, v⟩ := kv
      simp only [List.map_cons, List.mem_cons] at h
      push_neg at h
      simp only [dget]
      rw [if_neg (fun hk => h.1 hk.symm), ih h.2]

/-- After `d.update(other)` with `other`'s keys distinct (as in any Python
dict), a key defined by `other` reads `other`'s value, any other key reads
`d`'s value. -/
theorem dget_dupdate (other : Dict) (d : Dict) (key : String)
    (h : (other.map Prod.fst).Nodup) :
    dget (dupdate d other) key =
      match dget other key with
      | some v => some v
      | none => dget d key := by
  induction other generalizing d with
  | nil => simp [dupdate, dget]
  | cons kv rest ih =>
      obtain ⟨k, v⟩ := kv
      simp only [List.map_cons, List.nodup_cons] at h
      have step : dupdate d ((k, v) :: rest) = dupdate (dinsert d k v) rest := rfl
      rw [step, ih (dinsert d k v) h.2]
      by_cases hk : key = k
      · subst hk
        rw [dget_eq_none_of_not_mem rest key h.1]
        simp [dget, dget_dinsert]
      · have hk' : ¬k = key := fun h' => hk h'.symm
        cases hrest : dget rest key with
        | none => simp [dget, hk', hrest, dget_dinsert, hk]
        | some w => simp [dget, hk', hrest]

/-
`shared/auth.py`: the request gate. `configured` models
`os.getenv('API_KEY')` (`none` = unset), `api_key` the caller's
`x-api-key` header (`none` = absent).
-/

/-- `validate_api_key` from `src/shared/auth.py`: open mode when no key is
configured (unset or empty, both falsy in Python), deny a falsy supplied
key, otherwise exact string comparison. -/
def validate_api_key (configured api_key : Option String) : Bool :=
  match configured with
  | none => true
  | some c =>
      if c = "" then true
      else
        match api_key with
        | none => false
        | some k => if k = "" then false else k = c

/-- Truthiness of an optional route/header string (`if not asset_id:`). -/
def truthyStrOpt : Option String → Bool
  | none => false
  | some s => !(s = "")

/-- Outcome of one external store call that may raise. -/
inductive StoreOutcome where
  | ok
  | fail
deriving DecidableEq, Repr

/-- A row of the relational `file_metadata` table (columns as in the
`INSERT` of `src/assets_create/__init__.py`).  `created_at` is the
`SYSUTCDATETIME()` server timestamp, abstracted to a `Nat` tick; the
mutable columns hold whatever JSON value was written. -/
structure SqlRow where
  id : String
  file_name : JVal
  file_type : JVal
  file_size : JVal
  blob_url : JVal
  status : JVal
  created_at : Nat
deriving DecidableEq, Repr

/-- The row dict produced by the shared `SELECT ... AS ...` projection used
by the get / list / update handlers (`fetch_all_records` returns each row
as a dict of the aliased column names, in select order). -/
def rowToDict (r : SqlRow) : Dict :=
  [("id", jstr r.id), ("fileName", r.file_name), ("fileType", r.file_type),
   ("fileSize", r.file_size), ("blobUrl", r.blob_url), ("status", r.status),
   ("uploadDate", jint r.created_at)]

/-
`src/assets_get/__init__.py`
-/

structure GetResult where
  status : Nat
  body : Option Dict
  cosmosRead : Bool
  sqlRead : Bool
deriving DecidableEq, Repr

/-- The get handler `main` of `src/assets_get/__init__.py`.
`cosmosDoc` is the document-store record for the id (`none` = absent,
absence is not an error), `table` the relational table, and
`cosmosReadOut` / `sqlReadOut` whether each read call raises (any raise is
caught by the shared `try` and becomes a 500). -/
def assets_get (configured api_key : Option String) (asset_id : Option String)
    (cosmosDoc : Option Dict) (table : List SqlRow)
    (cosmosReadOut sqlReadOut : StoreOutcome) : GetResult :=
  if !(validate_api_key configured api_key) then ⟨401, none, false, false⟩
  else if !(truthyStrOpt asset_id) then ⟨400, none, false, false⟩
  else
    let aid := asset_id.getD ""
    match cosmosReadOut with
    | .fail => ⟨500, none, true, false⟩
    | .ok =>
      match sqlReadOut with
      | .fail => ⟨500, none, true, true⟩
      | .ok =>
        let sql_results := (table.filter (fun r => r.id = aid)).map rowToDict
        let result0 := cosmosDoc.getD []       -- `cosmos_doc or {}`
        let result := match sql_results with   -- `result.update(sql_results[0])`
          | [] => result0
          | row :: _ => dupdate result0 row
        if result = [] then ⟨404, none, true, true⟩
        else ⟨200, some result, true, true⟩

/-
`src/assets_list/__init__.py`
-/

structure ListResult where
  status : Nat
  body : Option (List Dict)
deriving DecidableEq, Repr

/-- `ORDER BY created_at DESC`: most recent first. -/
def created_desc (a b : SqlRow) : Prop := b.created_at ≤ a.created_at

instance : DecidableRel created_desc := fun a b => Nat.decLe b.created_at a.created_at

instance : IsTotal SqlRow created_desc :=
  ⟨fun a b => Nat.le_total b.created_at a.created_at⟩

instance : IsTrans SqlRow created_desc :=
  ⟨fun _ _ _ hab hbc => Nat.le_trans hbc hab⟩

/-- The list query of `src/assets_list/__init__.py`: all rows of
`file_metadata`, projected through the aliased SELECT, ordered by
`created_at DESC` (the sort the relational store performs, modelled as an
insertion sort under `created_desc`). -/
def fetch_all_ordered (table : List SqlRow) : List Dict :=
  (table.insertionSort created_desc).map rowToDict

/-- The list handler `main` of `src/assets_list/__init__.py`.  The
document store never appears in its body; `cosmosStore` is passed only so
that independence from it is a statable property. -/
def assets_list (configured api_key : Option String) (table : List SqlRow)
    (cosmosStore : List Dict) (sqlReadOut : StoreOutcome) : ListResult :=
  if !(validate_api_key configured api_key) then ⟨401, none⟩
  else
    match sqlReadOut with
    | .fail => ⟨500, none⟩
    | .ok => ⟨200, some (fetch_all_ordered table)⟩

/-
`src/assets_create/__init__.py`
-/

/-- Python `str(v)` as used by the f-string building the blob path. -/
def pyStr : JVal → String
  | .jstr s => s
  | .jint n => toString n
  | .jbool b => if b then "True" else "False"
  | .jnull => "None"

structure CreateResult where
  status : Nat
  body : Option Dict
  sasIssued : Bool
  cosmosAttempted : Bool
  cosmosDocAfter : Option Dict
  sqlAttempted : Bool
  sqlInserted : Bool
deriving DecidableEq, Repr

/-- The create handler `main` of `src/assets_create/__init__.py`.
`body` is the parsed JSON body (`none` = `ValueError` from `get_json`),
`asset_id` the generated UUID, `account`/`container`/`sas_token` the
storage configuration and issued token, `now` the server timestamp, and
`cosmosOut`/`sqlOut` whether the Cosmos upsert and the SQL insert raise. -/
def assets_create (configured api_key : Option String) (body : Option Dict)
    (asset_id account container sas_token : String) (now : Nat)
    (cosmosOut sqlOut : StoreOutcome) : CreateResult :=
  if !(validate_api_key configured api_key) then ⟨401, none, false, false, none, false, false⟩
  else
    match body with
    | none => ⟨400, none, false, false, none, false, false⟩
    | some d =>
      let file_name := dget d "fileName"
      let file_type := dget d "fileType"
      let file_size := dget d "fileSize"
      -- `if not all([file_name, file_type, file_size])`
      if !(truthyOpt file_name && truthyOpt file_type && truthyOpt file_size) then
        ⟨400, none, false, false, none, false, false⟩
      else
        -- `file_size = int(file_size)`
        match pyIntOpt file_size with
        | none => ⟨400, none, false, false, none, false, false⟩
        | some size =>
          let blob_path := asset_id ++ "/" ++ pyStr (file_name.getD jnull)
          let blob_url := "https://" ++ account ++ ".blob.core.windows.net/"
            ++ container ++ "/" ++ blob_path
          let upload_url := blob_url ++ "?" ++ sas_token
          -- Cosmos upsert: failure is logged and swallowed
          let cosmos_doc : Dict :=
            [("id", jstr asset_id), ("fileName", file_name.getD jnull),
             ("fileType", file_type.getD jnull), ("uploadDate", jint now),
             ("fileSize", jint size), ("blobUrl", jstr blob_url)]
          let cosmosDocAfter := match cosmosOut with
            | .ok => some cosmos_doc
            | .fail => none
          -- SQL insert: failure is fatal (500)
          match sqlOut with
          | .fail => ⟨500, none, true, true, cosmosDocAfter, true, false⟩
          | .ok =>
            ⟨201,
             some [("id", jstr asset_id), ("blobUrl", jstr blob_url),
                   ("uploadUrl", jstr upload_url)],
             true, true, cosmosDocAfter, true, true⟩

/-
`src/assets_delete/__init__.py`
-/

structure DeleteResult where
  status : Nat
  body : Option Dict
  blobsDeleted : List String
  sqlAttempted : Bool
  tableAfter : List SqlRow
  cosmosAttempted : Bool
  cosmosDeleted : Bool
deriving DecidableEq, Repr

/-- The delete handler `main` of `src/assets_delete/__init__.py`.
`blobStore` is the set of blob names in the container, `listingFails`
whether `list_blobs` raises (caught, logged, flow continues),
`blobDeleteOK` whether each individual `delete_blob` succeeds (per-blob
failure is logged and skipped), `sqlOut` whether the relational DELETE
raises (fatal), `cosmosOut` whether the document-store delete raises
(logged and swallowed). -/
def assets_delete (configured api_key : Option String) (asset_id : Option String)
    (blobStore : List String) (listingFails : Bool) (blobDeleteOK : String → Bool)
    (table : List SqlRow) (sqlOut cosmosOut : StoreOutcome) : DeleteResult :=
  if !(validate_api_key configured api_key) then ⟨401, none, [], false, table, false, false⟩
  else if !(truthyStrOpt asset_id) then ⟨400, none, [], false, table, false, false⟩
  else
    let aid := asset_id.getD ""
    -- blobs with the `{asset_id}/` prefix; a listing failure aborts the
    -- whole blob block (no per-blob deletes) and execution continues
    let blobs_to_delete :=
      if listingFails then []
      else blobStore.filter (fun b => b.startsWith (aid ++ "/"))
    let deleted := blobs_to_delete.filter blobDeleteOK
    -- relational DELETE: failure is fatal, Cosmos delete never attempted
    match sqlOut with
    | .fail => ⟨500, none, deleted, true, table, false, false⟩
    | .ok =>
      let tableAfter := table.filter (fun r => !(r.id = aid))
      ⟨200, some [("deleted", jbool true), ("id", jstr aid)], deleted, true,
       tableAfter, true, cosmosOut = StoreOutcome.ok⟩

/-
`src/assets_update/__init__.py`
-/

/-- `allowed_fields` from the update handler. -/
def allowed_fields : List String := ["fileName", "fileType", "fileSize", "blobUrl", "status"]

/-- `fields_to_update = {k: v for k, v in update_data.items() if k in allowed_fields}`. -/
def filterAllowed (d : Dict) : Dict := d.filter (fun kv => kv.1 ∈ allowed_fields)

/-- `field_mapping` from the update handler (camelCase field → SQL column). -/
def field_mapping : List (String × String) :=
  [("fileName", "file_name"), ("fileType", "file_type"),
   ("fileSize", "file_size"), ("blobUrl", "blob_url")]

/-- The `(column, value)` pairs accumulated by the loop that builds
`sql_updates` and `sql_params`: mapped columns for the four mapped fields,
`status` passed through, anything else skipped. -/
def sqlUpdatesFor (fields : Dict) : List (String × JVal) :=
  fields.filterMap (fun kv =>
    match field_mapping.lookup kv.1 with
    | some col => some (col, kv.2)
    | none => if kv.1 = "status" then some ("status", kv.2) else none)

/-- Effect of one `SET col = :col` item of the dynamic UPDATE on a row. -/
def applySet (r : SqlRow) (u : String × JVal) : SqlRow :=
  if u.1 = "file_name" then { r with file_name := u.2 }
  else if u.1 = "file_type" then { r with file_type := u.2 }
  else if u.1 = "file_size" then { r with file_size := u.2 }
  else if u.1 = "blob_url" then { r with blob_url := u.2 }
  else if u.1 = "status" then { r with status := u.2 }
  else r

/-- Effect of the whole dynamic `UPDATE file_metadata SET ... WHERE id = :id`
on the matched row. -/
def runUpdate (r : SqlRow) (fields : Dict) : SqlRow :=
  (sqlUpdatesFor fields).foldl applySet r

/-- The re-read-and-merge (or fallback) that builds the update handler's
response body: same merge shape as the get handler; on any re-read failure
or fully-empty result, fall back to `{'id': asset_id, **fields_to_update}`. -/
def update_response (aid : String) (fields : Dict) (cosmosAfter : Option Dict)
    (rowAfter : Option SqlRow) (readBackOut : StoreOutcome) : Dict :=
  match readBackOut with
  | .fail => ("id", jstr aid) :: fields
  | .ok =>
    let sql_results := match rowAfter with
      | none => []
      | some r => [rowToDict r]
    let base := cosmosAfter.getD []
    let merged := match sql_results with
      | [] => base
      | rowD :: _ => dupdate base rowD
    if merged = [] then ("id", jstr aid) :: fields else merged

structure UpdateResult where
  status : Nat
  body : Option Dict
  cosmosAttempted : Bool
  cosmosAfter : Option Dict
  sqlAttempted : Bool
  setCols : List String
  rowAfter : Option SqlRow
deriving DecidableEq, Repr

/-- The update handler `main` of `src/assets_update/__init__.py`.
`body` is the parsed JSON body (`none` = invalid JSON), `cosmosDoc` /
`row` the current document-store record and relational row for the id,
`cosmosOut` whether the Cosmos read-modify-write raises (swallowed),
`sqlOut` whether the dynamic UPDATE raises (fatal), `readBackOut` whether
the final re-read raises (falls back to echoing the submitted fields). -/
def assets_update (configured api_key : Option String) (asset_id : Option String)
    (body : Option Dict) (cosmosDoc : Option Dict) (cosmosOut : StoreOutcome)
    (row : Option SqlRow) (sqlOut readBackOut : StoreOutcome) : UpdateResult :=
  if !(validate_api_key configured api_key) then
    ⟨401, none, false, cosmosDoc, false, [], row⟩
  else if !(truthyStrOpt asset_id) then
    ⟨400, none, false, cosmosDoc, false, [], row⟩
  else
    let aid := asset_id.getD ""
    match body with
    | none => ⟨400, none, false, cosmosDoc, false, [], row⟩
    | some d =>
      let fields := filterAllowed d
      if fields = [] then ⟨400, none, false, cosmosDoc, false, [], row⟩
      else
        -- Cosmos: `doc = get_asset_doc(asset_id) or {"id": asset_id}`,
        -- `doc.update(fields_to_update)`, upsert; failure swallowed
        let base := match cosmosDoc with
          | none => [("id", jstr aid)]
          | some dd => if dd = [] then [("id", jstr aid)] else dd
        let cosmosAfter := match cosmosOut with
          | .ok => some (dupdate base fields)
          | .fail => cosmosDoc
        let updates := sqlUpdatesFor fields
        let cols := updates.map Prod.fst
        -- `if sql_updates:` — empty SET list skips the execute
        if updates = [] then
          ⟨200, some (update_response aid fields cosmosAfter row readBackOut),
           true, cosmosAfter, false, cols, row⟩
        else
          match sqlOut with
          | .fail => ⟨500, none, true, cosmosAfter, true, cols, row⟩
          | .ok =>
            let rowAfter := row.map (fun r => updates.foldl applySet r)
            ⟨200, some (update_response aid fields cosmosAfter rowAfter readBackOut),
             true, cosmosAfter, true, cols, rowAfter⟩

/-
Helper lemmas shared by the claim theorems.
-/

theorem validate_api_key_eq (c k : Option String) :
    validate_api_key c k = (c.isNone || c == some "" || k == c) := by
  cases c with
  | none => rfl
  | some s =>
      cases k with
      | none =>
          by_cases hs : s = "" <;> simp [validate_api_key, hs]
      | some k' =>
          by_cases hs : s = ""
          · simp [validate_api_key, hs]
          · by_cases hk : k' = ""
            · simp [validate_api_key, hs, hk]
              exact fun h => hs h.symm
            · simp only [validate_api_key, hs, hk, if_false, if_neg hs, if_neg hk]
              by_cases he : k' = s <;> simp [he, hs, beq_iff_eq]

theorem filterAllowed_eq_nil (d : Dict) (h : ∀ kv ∈ d, kv.1 ∉ allowed_fields) :
    filterAllowed d = [] := by
  induction d with
  | nil => rfl
  | cons kv rest ih =>
      have h1 : kv.1 ∉ allowed_fields := h kv (List.mem_cons_self kv rest)
      have h2 : filterAllowed rest = [] := ih (fun kv' hkv' => h kv' (List.mem_cons_of_mem kv hkv'))
      simp only [filterAllowed, List.filter] at h2 ⊢
      rw [decide_eq_false h1]
      exact h2

theorem mem_filterAllowed (d : Dict) (kv : String × JVal) (h : kv ∈ filterAllowed d) :
    kv.1 ∈ allowed_fields := by
  have := List.of_mem_filter h
  exact of_decide_eq_true this

/-- Claim C8: the request gate allows a request exactly when no API key is
configured (env var unset or empty, both falsy) or the supplied
`x-api-key` exactly equals the configured value; when it denies, the get
handler returns 401 and touches neither store. -/
theorem C8_request_gate (configured api_key asset_id : Option String)
    (cosmosDoc : Option Dict) (table : List SqlRow) (co so : StoreOutcome)
    (h : validate_api_key configured api_key = false) :
    validate_api_key configured api_key
      = (configured.isNone || configured == some "" || api_key == configured) ∧
    configured ≠ none ∧ configured ≠ some "" ∧ api_key ≠ configured ∧
    (assets_get configured api_key asset_id cosmosDoc table co so).status = 401 ∧
    (assets_get configured api_key asset_id cosmosDoc table co so).cosmosRead = false ∧
    (assets_get configured api_key asset_id cosmosDoc table co so).sqlRead = false := by
  have he := validate_api_key_eq configured api_key
  rw [h] at he
  have he' := he.symm
  simp only [Bool.or_eq_false_iff] at he'
  refine ⟨validate_api_key_eq configured api_key, ?_, ?_, ?_, ?_, ?_, ?_⟩
  · intro hc
    rw [hc] at he'
    simp at he'
  · intro hc
    rw [hc] at he'
    simp at he'
  · intro hc
    rw [hc] at he'
    simp at he'
  all_goals simp [assets_get, h]

/-- Witness for claim C8: a configured key with a mismatched supplied key is denied
with a 401 and no store reads. -/
theorem C8_request_gate_witness :
    validate_api_key (some "secret") (some "wrong") = false ∧
    (validate_api_key (some "secret") (some "wrong")
      = ((some "secret" : Option String).isNone
          || (some "secret" : Option String) == some ""
          || (some "wrong" : Option String) == some "secret") ∧
     (some "secret" : Option String) ≠ none ∧
     (some "secret" : Option String) ≠ some "" ∧
     (some "wrong" : Option String) ≠ some "secret" ∧
     (assets_get (some "secret") (some "wrong") (some "a1") none [] StoreOutcome.ok StoreOutcome.ok).status = 401 ∧
     (assets_get (some "secret") (some "wrong") (some "a1") none [] StoreOutcome.ok StoreOutcome.ok).cosmosRead = false ∧
     (assets_get (some "secret") (some "wrong") (some "a1") none [] StoreOutcome.ok StoreOutcome.ok).sqlRead = false) :=
  ⟨by decide,
   C8_request_gate (some "secret") (some "wrong") (some "a1") none [] StoreOutcome.ok StoreOutcome.ok (by decide)⟩

/-- Claim C1: for an authenticated, validated create request the handler returns
201 exactly when the relational insert succeeds: a document-store (Cosmos)
failure is non-fatal and the relational insert still happens; a relational
failure yields 500 regardless of the document-store outcome; and the
status never depends on the document-store outcome. -/
theorem C1_create_relational_authoritative
    (configured api_key : Option String) (d : Dict)
    (asset_id account container sas_token : String) (now : Nat)
    (cosmosOut sqlOut : StoreOutcome)
    (hauth : validate_api_key configured api_key = true)
    (hreq : (truthyOpt (dget d "fileName") && truthyOpt (dget d "fileType")
              && truthyOpt (dget d "fileSize")) = true)
    (hint : pyIntOpt (dget d "fileSize") ≠ none) :
    ((assets_create configured api_key (some d) asset_id account container
        sas_token now cosmosOut sqlOut).status = 201 ↔ sqlOut = StoreOutcome.ok) ∧
    ((assets_create configured api_key (some d) asset_id account container
        sas_token now cosmosOut sqlOut).status = 500 ↔ sqlOut = StoreOutcome.fail) ∧
    (assets_create configured api_key (some d) asset_id account container
        sas_token now cosmosOut sqlOut).sqlAttempted = true ∧
    (assets_create configured api_key (some d) asset_id account container
        sas_token now cosmosOut sqlOut).cosmosAttempted = true ∧
    (∀ co : StoreOutcome,
      (assets_create configured api_key (some d) asset_id account container
          sas_token now co sqlOut).status
        = (assets_create configured api_key (some d) asset_id account container
            sas_token now cosmosOut sqlOut).status) := by
  cases hn : pyIntOpt (dget d "fileSize") with
  | none => exact absurd hn hint
  | some size =>
      cases sqlOut <;> cases cosmosOut <;>
        exact ⟨by simp [assets_create, hauth, hreq, hn],
               by simp [assets_create, hauth, hreq, hn],
               by simp [assets_create, hauth, hreq, hn],
               by simp [assets_create, hauth, hreq, hn],
               fun co => by cases co <;> simp [assets_create, hauth, hreq, hn]⟩

/-- Witness for claim C1: with a valid body, a failing Cosmos write and a succeeding
SQL insert, the create handler returns 201 and performs the insert. -/
theorem C1_create_relational_authoritative_witness :
    validate_api_key none none = true ∧
    (truthyOpt (dget [("fileName", jstr "f.jpg"), ("fileType", jstr "image/jpeg"),
        ("fileSize", jint 12345)] "fileName")
      && truthyOpt (dget [("fileName", jstr "f.jpg"), ("fileType", jstr "image/jpeg"),
           ("fileSize", jint 12345)] "fileType")
      && truthyOpt (dget [("fileName", jstr "f.jpg"), ("fileType", jstr "image/jpeg"),
           ("fileSize", jint 12345)] "fileSize")) = true ∧
    pyIntOpt (dget [("fileName", jstr "f.jpg"), ("fileType", jstr "image/jpeg"),
        ("fileSize", jint 12345)] "fileSize") ≠ none ∧
    (((assets_create none none
        (some [("fileName", jstr "f.jpg"), ("fileType", jstr "image/jpeg"),
               ("fileSize", jint 12345)])
        "uuid1" "acct" "assets" "sas" 7 StoreOutcome.fail StoreOutcome.ok).status = 201
        ↔ StoreOutcome.ok = StoreOutcome.ok) ∧
     ((assets_create none none
        (some [("fileName", jstr "f.jpg"), ("fileType", jstr "image/jpeg"),
               ("fileSize", jint 12345)])
        "uuid1" "acct" "assets" "sas" 7 StoreOutcome.fail StoreOutcome.ok).status = 500
        ↔ StoreOutcome.ok = StoreOutcome.fail) ∧
     (assets_create none none
        (some [("fileName", jstr "f.jpg"), ("fileType", jstr "image/jpeg"),
               ("fileSize", jint 12345)])
        "uuid1" "acct" "assets" "sas" 7 StoreOutcome.fail StoreOutcome.ok).sqlAttempted = true ∧
     (assets_create none none
        (some [("fileName", jstr "f.jpg"), ("fileType", jstr "image/jpeg"),
               ("fileSize", jint 12345)])
        "uuid1" "acct" "assets" "sas" 7 StoreOutcome.fail StoreOutcome.ok).cosmosAttempted = true ∧
     (∀ co : StoreOutcome,
       (assets_create none none
          (some [("fileName", jstr "f.jpg"), ("fileType", jstr "image/jpeg"),
                 ("fileSize", jint 12345)])
          "uuid1" "acct" "assets" "sas" 7 co StoreOutcome.ok).status
         = (assets_create none none
             (some [("fileName", jstr "f.jpg"), ("fileType", jstr "image/jpeg"),
                    ("fileSize", jint 12345)])
             "uuid1" "acct" "assets" "sas" 7 StoreOutcome.fail StoreOutcome.ok).status)) :=
  ⟨rfl, by decide, by decide,
   C1_create_relational_authoritative none none
     [("fileName", jstr "f.jpg"), ("fileType", jstr "image/jpeg"), ("fileSize", jint 12345)]
     "uuid1" "acct" "assets" "sas" 7 StoreOutcome.fail StoreOutcome.ok
     rfl (by decide) (by decide)⟩

/-- Claim C7: a create request whose fileSize cannot be parsed as an integer
(e.g. the string "abc") is rejected with 400 before any store is touched:
no SAS credential is issued, no Cosmos write and no SQL insert happen. -/
theorem C7_create_rejects_unparsable_fileSize
    (configured api_key : Option String) (d : Dict)
    (asset_id account container sas_token : String) (now : Nat)
    (cosmosOut sqlOut : StoreOutcome)
    (hauth : validate_api_key configured api_key = true)
    (hbad : pyIntOpt (dget d "fileSize") = none) :
    (assets_create configured api_key (some d) asset_id account container
        sas_token now cosmosOut sqlOut).status = 400 ∧
    (assets_create configured api_key (some d) asset_id account container
        sas_token now cosmosOut sqlOut).sasIssued = false ∧
    (assets_create configured api_key (some d) asset_id account container
        sas_token now cosmosOut sqlOut).cosmosAttempted = false ∧
    (assets_create configured api_key (some d) asset_id account container
        sas_token now cosmosOut sqlOut).cosmosDocAfter = none ∧
    (assets_create configured api_key (some d) asset_id account container
        sas_token now cosmosOut sqlOut).sqlAttempted = false := by
  by_cases hreq : (truthyOpt (dget d "fileName") && truthyOpt (dget d "fileType")
      && truthyOpt (dget d "fileSize")) = true
  · refine ⟨?_, ?_, ?_, ?_, ?_⟩ <;> simp [assets_create, hauth, hreq, hbad]
  · rw [Bool.not_eq_true] at hreq
    refine ⟨?_, ?_, ?_, ?_, ?_⟩ <;> simp [assets_create, hauth, hreq]

/-- Witness for claim C7: fileSize = "abc" yields a 400 with no SAS, no Cosmos write
and no SQL insert. -/
theorem C7_create_rejects_unparsable_fileSize_witness :
    validate_api_key none none = true ∧
    pyIntOpt (dget [("fileName", jstr "f.jpg"), ("fileType", jstr "image/jpeg"),
        ("fileSize", jstr "abc")] "fileSize") = none ∧
    ((assets_create none none
        (some [("fileName", jstr "f.jpg"), ("fileType", jstr "image/jpeg"),
               ("fileSize", jstr "abc")])
        "uuid1" "acct" "assets" "sas" 7 StoreOutcome.ok StoreOutcome.ok).status = 400 ∧
     (assets_create none none
        (some [("fileName", jstr "f.jpg"), ("fileType", jstr "image/jpeg"),
               ("fileSize", jstr "abc")])
        "uuid1" "acct" "assets" "sas" 7 StoreOutcome.ok StoreOutcome.ok).sasIssued = false ∧
     (assets_create none none
        (some [("fileName", jstr "f.jpg"), ("fileType", jstr "image/jpeg"),
               ("fileSize", jstr "abc")])
        "uuid1" "acct" "assets" "sas" 7 StoreOutcome.ok StoreOutcome.ok).cosmosAttempted = false ∧
     (assets_create none none
        (some [("fileName", jstr "f.jpg"), ("fileType", jstr "image/jpeg"),
               ("fileSize", jstr "abc")])
        "uuid1" "acct" "assets" "sas" 7 StoreOutcome.ok StoreOutcome.ok).cosmosDocAfter = none ∧
     (assets_create none none
        (some [("fileName", jstr "f.jpg"), ("fileType", jstr "image/jpeg"),
               ("fileSize", jstr "abc")])
        "uuid1" "acct" "assets" "sas" 7 StoreOutcome.ok StoreOutcome.ok).sqlAttempted = false) :=
  ⟨rfl, by decide,
   C7_create_rejects_unparsable_fileSize none none
     [("fileName", jstr "f.jpg"), ("fileType", jstr "image/jpeg"), ("fileSize", jstr "abc")]
     "uuid1" "acct" "assets" "sas" 7 StoreOutcome.ok StoreOutcome.ok rfl (by decide)⟩

/-- Claim C10: the create handler's required-field check tests truthiness, not
presence — a request where fileName, fileType or fileSize is present but
falsy (e.g. fileSize = 0 or fileName = "") is rejected with 400 as if the
field were missing, with no store touched. -/
theorem C10_create_truthiness_check
    (configured api_key : Option String) (d : Dict) (k0 : String) (v : JVal)
    (asset_id account container sas_token : String) (now : Nat)
    (cosmosOut sqlOut : StoreOutcome)
    (hauth : validate_api_key configured api_key = true)
    (hk : k0 = "fileName" ∨ k0 = "fileType" ∨ k0 = "fileSize")
    (hget : dget d k0 = some v)
    (hfalsy : pyTruthy v = false) :
    (assets_create configured api_key (some d) asset_id account container
        sas_token now cosmosOut sqlOut).status = 400 ∧
    (assets_create configured api_key (some d) asset_id account container
        sas_token now cosmosOut sqlOut).sasIssued = false ∧
    (assets_create configured api_key (some d) asset_id account container
        sas_token now cosmosOut sqlOut).cosmosAttempted = false ∧
    (assets_create configured api_key (some d) asset_id account container
        sas_token now cosmosOut sqlOut).sqlAttempted = false := by
  have hreq : (truthyOpt (dget d "fileName") && truthyOpt (dget d "fileType")
      && truthyOpt (dget d "fileSize")) = false := by
    rcases hk with h | h | h <;> subst h <;>
      simp [hget, truthyOpt, hfalsy]
  refine ⟨?_, ?_, ?_, ?_⟩ <;> simp [assets_create, hauth, hreq]

/-- Witness for claim C10: fileSize present as the integer 0 (a perfectly parseable
integer) is still rejected with 400 and no store is touched. -/
theorem C10_create_truthiness_check_witness :
    validate_api_key none none = true ∧
    ("fileSize" = "fileName" ∨ "fileSize" = "fileType" ∨ "fileSize" = "fileSize") ∧
    dget [("fileName", jstr "f.jpg"), ("fileType", jstr "image/jpeg"),
          ("fileSize", jint 0)] "fileSize" = some (jint 0) ∧
    pyTruthy (jint 0) = false ∧
    ((assets_create none none
        (some [("fileName", jstr "f.jpg"), ("fileType", jstr "image/jpeg"),
               ("fileSize", jint 0)])
        "uuid1" "acct" "assets" "sas" 7 StoreOutcome.ok StoreOutcome.ok).status = 400 ∧
     (assets_create none none
        (some [("fileName", jstr "f.jpg"), ("fileType", jstr "image/jpeg"),
               ("fileSize", jint 0)])
        "uuid1" "acct" "assets" "sas" 7 StoreOutcome.ok StoreOutcome.ok).sasIssued = false ∧
     (assets_create none none
        (some [("fileName", jstr "f.jpg"), ("fileType", jstr "image/jpeg"),
               ("fileSize", jint 0)])
        "uuid1" "acct" "assets" "sas" 7 StoreOutcome.ok StoreOutcome.ok).cosmosAttempted = false ∧
     (assets_create none none
        (some [("fileName", jstr "f.jpg"), ("fileType", jstr "image/jpeg"),
               ("fileSize", jint 0)])
        "uuid1" "acct" "assets" "sas" 7 StoreOutcome.ok StoreOutcome.ok).sqlAttempted = false) :=
  ⟨rfl, by decide, by decide, rfl,
   C10_create_truthiness_check none none
     [("fileName", jstr "f.jpg"), ("fileType", jstr "image/jpeg"), ("fileSize", jint 0)]
     "fileSize" (jint 0)
     "uuid1" "acct" "assets" "sas" 7 StoreOutcome.ok StoreOutcome.ok
     rfl (by decide) (by decide) rfl⟩

/-- Claim C4: for an authenticated delete with an id, the handler returns 200
with body `{deleted: true, id}` exactly when the relational delete
succeeds — independent of the blob store contents, a listing failure,
per-blob delete failures, the document-store outcome, and of whether any
row with that id even exists; on relational failure it returns 500 and the
document-store delete is never attempted. -/
theorem C4_delete_relational_authoritative
    (configured api_key : Option String) (asset_id : Option String)
    (blobStore : List String) (listingFails : Bool) (blobDeleteOK : String → Bool)
    (table : List SqlRow) (sqlOut cosmosOut : StoreOutcome)
    (hauth : validate_api_key configured api_key = true)
    (hid : truthyStrOpt asset_id = true) :
    ((assets_delete configured api_key asset_id blobStore listingFails blobDeleteOK
        table sqlOut cosmosOut).status = 200 ↔ sqlOut = StoreOutcome.ok) ∧
    (sqlOut = StoreOutcome.ok →
      (assets_delete configured api_key asset_id blobStore listingFails blobDeleteOK
          table sqlOut cosmosOut).body
        = some [("deleted", jbool true), ("id", jstr (asset_id.getD ""))]) ∧
    (sqlOut = StoreOutcome.fail →
      (assets_delete configured api_key asset_id blobStore listingFails blobDeleteOK
          table sqlOut cosmosOut).status = 500 ∧
      (assets_delete configured api_key asset_id blobStore listingFails blobDeleteOK
          table sqlOut cosmosOut).cosmosAttempted = false) ∧
    (∀ (bs : List String) (lf : Bool) (f : String → Bool) (t : List SqlRow)
        (co : StoreOutcome),
      (assets_delete configured api_key asset_id bs lf f t sqlOut co).status
        = (assets_delete configured api_key asset_id blobStore listingFails blobDeleteOK
            table sqlOut cosmosOut).status ∧
      (assets_delete configured api_key asset_id bs lf f t sqlOut co).body
        = (assets_delete configured api_key asset_id blobStore listingFails blobDeleteOK
            table sqlOut cosmosOut).body) := by
  cases sqlOut <;>
    exact ⟨by simp [assets_delete, hauth, hid],
           by simp [assets_delete, hauth, hid],
           by simp [assets_delete, hauth, hid],
           fun bs lf f t co => by simp [assets_delete, hauth, hid]⟩

/-- Witness for claim C4: deleting an id with no rows, no blobs and a failing Cosmos
delete still yields 200 `{deleted: true, id}`. -/
theorem C4_delete_relational_authoritative_witness :
    validate_api_key none none = true ∧
    truthyStrOpt (some "a1") = true ∧
    (((assets_delete none none (some "a1") [] false (fun _ => true)
        [] StoreOutcome.ok StoreOutcome.fail).status = 200 ↔ StoreOutcome.ok = StoreOutcome.ok) ∧
     (StoreOutcome.ok = StoreOutcome.ok →
       (assets_delete none none (some "a1") [] false (fun _ => true)
          [] StoreOutcome.ok StoreOutcome.fail).body
         = some [("deleted", jbool true), ("id", jstr ((some "a1" : Option String).getD ""))]) ∧
     (StoreOutcome.ok = StoreOutcome.fail →
       (assets_delete none none (some "a1") [] false (fun _ => true)
          [] StoreOutcome.ok StoreOutcome.fail).status = 500 ∧
       (assets_delete none none (some "a1") [] false (fun _ => true)
          [] StoreOutcome.ok StoreOutcome.fail).cosmosAttempted = false) ∧
     (∀ (bs : List String) (lf : Bool) (f : String → Bool) (t : List SqlRow)
         (co : StoreOutcome),
       (assets_delete none none (some "a1") bs lf f t StoreOutcome.ok co).status
         = (assets_delete none none (some "a1") [] false (fun _ => true)
             [] StoreOutcome.ok StoreOutcome.fail).status ∧
       (assets_delete none none (some "a1") bs lf f t StoreOutcome.ok co).body
         = (assets_delete none none (some "a1") [] false (fun _ => true)
             [] StoreOutcome.ok StoreOutcome.fail).body)) :=
  ⟨rfl, by decide,
   C4_delete_relational_authoritative none none (some "a1") [] false (fun _ => true)
     [] StoreOutcome.ok StoreOutcome.fail rfl (by decide)⟩

/-- Claim C9: an authenticated list request returns 200 with exactly the
relational rows (a permutation of the table), ordered by `created_at`
descending, and the result never depends on the document store. -/
theorem C9_list_ordered_desc
    (configured api_key : Option String) (table : List SqlRow)
    (cosmosStore : List Dict)
    (hauth : validate_api_key configured api_key = true) :
    (assets_list configured api_key table cosmosStore StoreOutcome.ok).status = 200 ∧
    (assets_list configured api_key table cosmosStore StoreOutcome.ok).body
      = some ((table.insertionSort created_desc).map rowToDict) ∧
    List.Sorted created_desc (table.insertionSort created_desc) ∧
    (table.insertionSort created_desc).Perm table ∧
    (∀ cs : List Dict,
      assets_list configured api_key table cs StoreOutcome.ok
        = assets_list configured api_key table cosmosStore StoreOutcome.ok) := by
  refine ⟨by simp [assets_list, hauth], by simp [assets_list, hauth, fetch_all_ordered],
    List.sorted_insertionSort created_desc table,
    List.perm_insertionSort created_desc table,
    fun cs => rfl⟩

/-- Witness for claim C9: a two-row table comes back most-recent-first. -/
theorem C9_list_ordered_desc_witness :
    validate_api_key none none = true ∧
    ((assets_list none none
        [⟨"a1", jstr "f1", jstr "t1", jint 1, jstr "u1", jstr "pending", 1⟩,
         ⟨"a2", jstr "f2", jstr "t2", jint 2, jstr "u2", jstr "pending", 5⟩]
        [] StoreOutcome.ok).status = 200 ∧
     (assets_list none none
        [⟨"a1", jstr "f1", jstr "t1", jint 1, jstr "u1", jstr "pending", 1⟩,
         ⟨"a2", jstr "f2", jstr "t2", jint 2, jstr "u2", jstr "pending", 5⟩]
        [] StoreOutcome.ok).body
       = some (([⟨"a1", jstr "f1", jstr "t1", jint 1, jstr "u1", jstr "pending", 1⟩,
                 ⟨"a2", jstr "f2", jstr "t2", jint 2, jstr "u2", jstr "pending", 5⟩]
           : List SqlRow).insertionSort created_desc |>.map rowToDict) ∧
     List.Sorted created_desc
       (([⟨"a1", jstr "f1", jstr "t1", jint 1, jstr "u1", jstr "pending", 1⟩,
          ⟨"a2", jstr "f2", jstr "t2", jint 2, jstr "u2", jstr "pending", 5⟩]
          : List SqlRow).insertionSort created_desc) ∧
     (([⟨"a1", jstr "f1", jstr "t1", jint 1, jstr "u1", jstr "pending", 1⟩,
        ⟨"a2", jstr "f2", jstr "t2", jint 2, jstr "u2", jstr "pending", 5⟩]
        : List SqlRow).insertionSort created_desc).Perm
       [⟨"a1", jstr "f1", jstr "t1", jint 1, jstr "u1", jstr "pending", 1⟩,
        ⟨"a2", jstr "f2", jstr "t2", jint 2, jstr "u2", jstr "pending", 5⟩] ∧
     (∀ cs : List Dict,
       assets_list none none
         [⟨"a1", jstr "f1", jstr "t1", jint 1, jstr "u1", jstr "pending", 1⟩,
          ⟨"a2", jstr "f2", jstr "t2", jint 2, jstr "u2", jstr "pending", 5⟩]
         cs StoreOutcome.ok
        = assets_list none none
           [⟨"a1", jstr "f1", jstr "t1", jint 1, jstr "u1", jstr "pending", 1⟩,
            ⟨"a2", jstr "f2", jstr "t2", jint 2, jstr "u2", jstr "pending", 5⟩]
           [] StoreOutcome.ok)) :=
  ⟨rfl,
   C9_list_ordered_desc none none
     [⟨"a1", jstr "f1", jstr "t1", jint 1, jstr "u1", jstr "pending", 1⟩,
      ⟨"a2", jstr "f2", jstr "t2", jint 2, jstr "u2", jstr "pending", 5⟩]
     [] rfl⟩

/-
Helper lemmas about the get handler's merge.
-/

theorem rowToDict_keys (r : SqlRow) :
    (rowToDict r).map Prod.fst
      = ["id", "fileName", "fileType", "fileSize", "blobUrl", "status", "uploadDate"] := rfl

theorem rowToDict_keys_nodup (r : SqlRow) : ((rowToDict r).map Prod.fst).Nodup := by
  rw [rowToDict_keys]
  decide

theorem dget_rowToDict_id (r : SqlRow) : dget (rowToDict r) "id" = some (jstr r.id) := by
  simp [rowToDict, dget]

theorem dupdate_rowToDict_ne_nil (d : Dict) (r : SqlRow) :
    dupdate d (rowToDict r) ≠ [] := by
  intro h
  have h1 : dget (dupdate d (rowToDict r)) "id" = some (jstr r.id) := by
    rw [dget_dupdate _ _ _ (rowToDict_keys_nodup r), dget_rowToDict_id]
  rw [h] at h1
  simp [dget] at h1

/-- Success path of the get handler when the relational query finds a row. -/
theorem assets_get_sql_hit (configured api_key : Option String) (aid : String)
    (cosmosDoc : Option Dict) (table : List SqlRow) (r : SqlRow) (rest : List SqlRow)
    (hauth : validate_api_key configured api_key = true)
    (hid : ¬aid = "")
    (hfil : table.filter (fun row => row.id = aid) = r :: rest) :
    assets_get configured api_key (some aid) cosmosDoc table
        StoreOutcome.ok StoreOutcome.ok
      = ⟨200, some (dupdate (cosmosDoc.getD []) (rowToDict r)), true, true⟩ := by
  simp only [assets_get, hauth, truthyStrOpt]
  simp [hid, hfil, dupdate_rowToDict_ne_nil]

/-- Success path of the get handler when the relational query finds nothing. -/
theorem assets_get_sql_miss (configured api_key : Option String) (aid : String)
    (cosmosDoc : Option Dict) (table : List SqlRow)
    (hauth : validate_api_key configured api_key = true)
    (hid : ¬aid = "")
    (hfil : table.filter (fun row => row.id = aid) = []) :
    assets_get configured api_key (some aid) cosmosDoc table
        StoreOutcome.ok StoreOutcome.ok
      = if cosmosDoc.getD [] = [] then ⟨404, none, true, true⟩
        else ⟨200, some (cosmosDoc.getD []), true, true⟩ := by
  simp only [assets_get, hauth, truthyStrOpt]
  simp [hid, hfil]

/-- Claim C2: an authenticated get for an id found in at least one store returns
the document-store record (or the empty dict) with the relational row
overlaid on top — on every key both stores define, the relational value
wins, and keys only the document store defines survive; an id present only
in the document store returns the document-store fields; an id in neither
store yields 404. -/
theorem C2_get_merge_relational_wins
    (configured api_key : Option String) (aid : String)
    (cosmosDoc : Option Dict) (table : List SqlRow)
    (hauth : validate_api_key configured api_key = true)
    (hid : ¬aid = "") :
    (∀ (r : SqlRow) (rest : List SqlRow),
      table.filter (fun row => row.id = aid) = r :: rest →
      (assets_get configured api_key (some aid) cosmosDoc table
          StoreOutcome.ok StoreOutcome.ok).status = 200 ∧
      (assets_get configured api_key (some aid) cosmosDoc table
          StoreOutcome.ok StoreOutcome.ok).body
        = some (dupdate (cosmosDoc.getD []) (rowToDict r)) ∧
      (∀ (key : String) (w : JVal), dget (rowToDict r) key = some w →
        dget (dupdate (cosmosDoc.getD []) (rowToDict r)) key = some w) ∧
      (∀ key : String, dget (rowToDict r) key = none →
        dget (dupdate (cosmosDoc.getD []) (rowToDict r)) key
          = dget (cosmosDoc.getD []) key)) ∧
    (table.filter (fun row => row.id = aid) = [] → cosmosDoc.getD [] ≠ [] →
      (assets_get configured api_key (some aid) cosmosDoc table
          StoreOutcome.ok StoreOutcome.ok).status = 200 ∧
      (assets_get configured api_key (some aid) cosmosDoc table
          StoreOutcome.ok StoreOutcome.ok).body = some (cosmosDoc.getD [])) ∧
    (table.filter (fun row => row.id = aid) = [] → cosmosDoc.getD [] = [] →
      (assets_get configured api_key (some aid) cosmosDoc table
          StoreOutcome.ok StoreOutcome.ok).status = 404) := by
  refine ⟨fun r rest hfil => ?_, fun hfil hne => ?_, fun hfil hnil => ?_⟩
  · rw [assets_get_sql_hit configured api_key aid cosmosDoc table r rest hauth hid hfil]
    refine ⟨rfl, rfl, fun key w hw => ?_, fun key hn => ?_⟩
    · rw [dget_dupdate _ _ _ (rowToDict_keys_nodup r), hw]
    · rw [dget_dupdate _ _ _ (rowToDict_keys_nodup r), hn]
  · rw [assets_get_sql_miss configured api_key aid cosmosDoc table hauth hid hfil,
      if_neg hne]
    exact ⟨rfl, rfl⟩
  · rw [assets_get_sql_miss configured api_key aid cosmosDoc table hauth hid hfil,
      if_pos hnil]

/-- Witness for claim C2: an id present only as `{"extra": "x"}` in the document
store returns exactly those fields, and an id present in both stores
merges with the relational values on top. -/
theorem C2_get_merge_relational_wins_witness :
    validate_api_key none none = true ∧
    ¬("a1" : String) = "" ∧
    ((∀ (r : SqlRow) (rest : List SqlRow),
       ([⟨"a1", jstr "f", jstr "t", jint 1, jstr "u", jstr "sql-status", 0⟩]
         : List SqlRow).filter (fun row => row.id = "a1") = r :: rest →
       (assets_get none none (some "a1")
           (some [("extra", jstr "x"), ("status", jstr "cosmos-status")])
           [⟨"a1", jstr "f", jstr "t", jint 1, jstr "u", jstr "sql-status", 0⟩]
           StoreOutcome.ok StoreOutcome.ok).status = 200 ∧
       (assets_get none none (some "a1")
           (some [("extra", jstr "x"), ("status", jstr "cosmos-status")])
           [⟨"a1", jstr "f", jstr "t", jint 1, jstr "u", jstr "sql-status", 0⟩]
           StoreOutcome.ok StoreOutcome.ok).body
         = some (dupdate ((some [("extra", jstr "x"), ("status", jstr "cosmos-status")]
             : Option Dict).getD []) (rowToDict r)) ∧
       (∀ (key : String) (w : JVal), dget (rowToDict r) key = some w →
         dget (dupdate ((some [("extra", jstr "x"), ("status", jstr "cosmos-status")]
             : Option Dict).getD []) (rowToDict r)) key = some w) ∧
       (∀ key : String, dget (rowToDict r) key = none →
         dget (dupdate ((some [("extra", jstr "x"), ("status", jstr "cosmos-status")]
             : Option Dict).getD []) (rowToDict r)) key
           = dget ((some [("extra", jstr "x"), ("status", jstr "cosmos-status")]
               : Option Dict).getD []) key)) ∧
     (([⟨"a1", jstr "f", jstr "t", jint 1, jstr "u", jstr "sql-status", 0⟩]
         : List SqlRow).filter (fun row => row.id = "a1") = [] →
       ((some [("extra", jstr "x"), ("status", jstr "cosmos-status")]
           : Option Dict).getD []) ≠ [] →
       (assets_get none none (some "a1")
           (some [("extra", jstr "x"), ("status", jstr "cosmos-status")])
           [⟨"a1", jstr "f", jstr "t", jint 1, jstr "u", jstr "sql-status", 0⟩]
           StoreOutcome.ok StoreOutcome.ok).status = 200 ∧
       (assets_get none none (some "a1")
           (some [("extra", jstr "x"), ("status", jstr "cosmos-status")])
           [⟨"a1", jstr "f", jstr "t", jint 1, jstr "u", jstr "sql-status", 0⟩]
           StoreOutcome.ok StoreOutcome.ok).body
         = some ((some [("extra", jstr "x"), ("status", jstr "cosmos-status")]
             : Option Dict).getD [])) ∧
     (([⟨"a1", jstr "f", jstr "t", jint 1, jstr "u", jstr "sql-status", 0⟩]
         : List SqlRow).filter (fun row => row.id = "a1") = [] →
       ((some [("extra", jstr "x"), ("status", jstr "cosmos-status")]
           : Option Dict).getD []) = [] →
       (assets_get none none (some "a1")
           (some [("extra", jstr "x"), ("status", jstr "cosmos-status")])
           [⟨"a1", jstr "f", jstr "t", jint 1, jstr "u", jstr "sql-status", 0⟩]
           StoreOutcome.ok StoreOutcome.ok).status = 404)) :=
  ⟨rfl, by decide,
   C2_get_merge_relational_wins none none "a1"
     (some [("extra", jstr "x"), ("status", jstr "cosmos-status")])
     [⟨"a1", jstr "f", jstr "t", jint 1, jstr "u", jstr "sql-status", 0⟩]
     rfl (by decide)⟩

/-- Counterexample for claim C3: for an id present in both stores with both defining
`status`, the merged single-item get response carries the RELATIONAL
value, not the document-store value — `result.update(sql_results[0])`
overwrites the Cosmos base, so the document store does NOT take precedence
(the code's inline comment notwithstanding). -/
theorem C3_document_precedence_counterexample :
    dget [("id", jstr "a1"), ("status", jstr "cosmos-status")] "status"
      = some (jstr "cosmos-status") ∧
    dget (rowToDict ⟨"a1", jstr "f", jstr "t", jint 1, jstr "u", jstr "sql-status", 0⟩)
      "status" = some (jstr "sql-status") ∧
    (assets_get none none (some "a1")
        (some [("id", jstr "a1"), ("status", jstr "cosmos-status")])
        [⟨"a1", jstr "f", jstr "t", jint 1, jstr "u", jstr "sql-status", 0⟩]
        StoreOutcome.ok StoreOutcome.ok).status = 200 ∧
    dget ((assets_get none none (some "a1")
        (some [("id", jstr "a1"), ("status", jstr "cosmos-status")])
        [⟨"a1", jstr "f", jstr "t", jint 1, jstr "u", jstr "sql-status", 0⟩]
        StoreOutcome.ok StoreOutcome.ok).body.getD []) "status"
      = some (jstr "sql-status") ∧
    some (jstr "sql-status") ≠ some (jstr "cosmos-status") := by
  refine ⟨by decide, by decide, by decide, by decide, by decide⟩

/-- Amended claim C3: on a single-item get whose relational query finds a row,
every field the relational row defines — in particular every field both
stores define — comes back with the RELATIONAL value: the merge starts
from the document-store record and the relational row takes precedence on
overlapping fields. -/
theorem C3_relational_precedence_on_overlap
    (configured api_key : Option String) (aid : String) (cosmosDoc : Option Dict)
    (table : List SqlRow) (r : SqlRow) (rest : List SqlRow)
    (hauth : validate_api_key configured api_key = true)
    (hid : ¬aid = "")
    (hfil : table.filter (fun row => row.id = aid) = r :: rest)
    (key : String) (w : JVal)
    (hsql : dget (rowToDict r) key = some w) :
    dget ((assets_get configured api_key (some aid) cosmosDoc table
        StoreOutcome.ok StoreOutcome.ok).body.getD []) key = some w := by
  rw [assets_get_sql_hit configured api_key aid cosmosDoc table r rest hauth hid hfil]
  simp only [Option.getD_some]
  rw [dget_dupdate _ _ _ (rowToDict_keys_nodup r), hsql]

/-- Witness for amended claim C3: with `status` defined by both stores, the merged
response's `status` is the relational one. -/
theorem C3_relational_precedence_on_overlap_witness :
    validate_api_key none none = true ∧
    ¬("a1" : String) = "" ∧
    ([⟨"a1", jstr "f", jstr "t", jint 1, jstr "u", jstr "sql-status", 0⟩]
        : List SqlRow).filter (fun row => row.id = "a1")
      = [⟨"a1", jstr "f", jstr "t", jint 1, jstr "u", jstr "sql-status", 0⟩] ∧
    dget (rowToDict ⟨"a1", jstr "f", jstr "t", jint 1, jstr "u", jstr "sql-status", 0⟩)
      "status" = some (jstr "sql-status") ∧
    dget ((assets_get none none (some "a1")
        (some [("id", jstr "a1"), ("status", jstr "cosmos-status")])
        [⟨"a1", jstr "f", jstr "t", jint 1, jstr "u", jstr "sql-status", 0⟩]
        StoreOutcome.ok StoreOutcome.ok).body.getD []) "status"
      = some (jstr "sql-status") :=
  ⟨rfl, by decide, by decide, by decide,
   C3_relational_precedence_on_overlap none none "a1"
     (some [("id", jstr "a1"), ("status", jstr "cosmos-status")])
     [⟨"a1", jstr "f", jstr "t", jint 1, jstr "u", jstr "sql-status", 0⟩]
     ⟨"a1", jstr "f", jstr "t", jint 1, jstr "u", jstr "sql-status", 0⟩ []
     rfl (by decide) (by decide) "status" (jstr "sql-status") (by decide)⟩

/-- Claim C5: an authenticated update whose JSON body contains no allow-listed
key is rejected with 400 and neither store is mutated (the Cosmos
read-modify-write never runs, the SQL UPDATE never runs, both modelled
states are unchanged and no SET column is built); and in general the
allow-list filter only ever lets allow-listed keys through, so unknown
keys are silently dropped and never written. -/
theorem C5_update_rejects_only_unknown_keys
    (configured api_key : Option String) (asset_id : Option String) (d : Dict)
    (cosmosDoc : Option Dict) (cosmosOut : StoreOutcome)
    (row : Option SqlRow) (sqlOut readBackOut : StoreOutcome)
    (hauth : validate_api_key configured api_key = true)
    (hid : truthyStrOpt asset_id = true)
    (hnone : ∀ kv ∈ d, kv.1 ∉ allowed_fields) :
    (assets_update configured api_key asset_id (some d) cosmosDoc cosmosOut
        row sqlOut readBackOut).status = 400 ∧
    (assets_update configured api_key asset_id (some d) cosmosDoc cosmosOut
        row sqlOut readBackOut).cosmosAttempted = false ∧
    (assets_update configured api_key asset_id (some d) cosmosDoc cosmosOut
        row sqlOut readBackOut).sqlAttempted = false ∧
    (assets_update configured api_key asset_id (some d) cosmosDoc cosmosOut
        row sqlOut readBackOut).cosmosAfter = cosmosDoc ∧
    (assets_update configured api_key asset_id (some d) cosmosDoc cosmosOut
        row sqlOut readBackOut).rowAfter = row ∧
    (assets_update configured api_key asset_id (some d) cosmosDoc cosmosOut
        row sqlOut readBackOut).setCols = [] ∧
    (∀ (d' : Dict) (kv : String × JVal), kv ∈ filterAllowed d' →
      kv.1 ∈ allowed_fields) := by
  have hf : filterAllowed d = [] := filterAllowed_eq_nil d hnone
  refine ⟨?_, ?_, ?_, ?_, ?_, ?_, fun d' kv hkv => mem_filterAllowed d' kv hkv⟩ <;>
    simp [assets_update, hauth, hid, hf]

/-- Witness for claim C5: a body with only the unrecognised key "junk" is rejected
with 400 and both store states are untouched. -/
theorem C5_update_rejects_only_unknown_keys_witness :
    validate_api_key none none = true ∧
    truthyStrOpt (some "a1") = true ∧
    (∀ kv ∈ ([("junk", jint 3)] : Dict), kv.1 ∉ allowed_fields) ∧
    ((assets_update none none (some "a1") (some [("junk", jint 3)])
        (some [("id", jstr "a1")]) StoreOutcome.ok
        (some ⟨"a1", jstr "f", jstr "t", jint 1, jstr "u", jstr "pending", 0⟩)
        StoreOutcome.ok StoreOutcome.ok).status = 400 ∧
     (assets_update none none (some "a1") (some [("junk", jint 3)])
        (some [("id", jstr "a1")]) StoreOutcome.ok
        (some ⟨"a1", jstr "f", jstr "t", jint 1, jstr "u", jstr "pending", 0⟩)
        StoreOutcome.ok StoreOutcome.ok).cosmosAttempted = false ∧
     (assets_update none none (some "a1") (some [("junk", jint 3)])
        (some [("id", jstr "a1")]) StoreOutcome.ok
        (some ⟨"a1", jstr "f", jstr "t", jint 1, jstr "u", jstr "pending", 0⟩)
        StoreOutcome.ok StoreOutcome.ok).sqlAttempted = false ∧
     (assets_update none none (some "a1") (some [("junk", jint 3)])
        (some [("id", jstr "a1")]) StoreOutcome.ok
        (some ⟨"a1", jstr "f", jstr "t", jint 1, jstr "u", jstr "pending", 0⟩)
        StoreOutcome.ok StoreOutcome.ok).cosmosAfter = some [("id", jstr "a1")] ∧
     (assets_update none none (some "a1") (some [("junk", jint 3)])
        (some [("id", jstr "a1")]) StoreOutcome.ok
        (some ⟨"a1", jstr "f", jstr "t", jint 1, jstr "u", jstr "pending", 0⟩)
        StoreOutcome.ok StoreOutcome.ok).rowAfter
       = some ⟨"a1", jstr "f", jstr "t", jint 1, jstr "u", jstr "pending", 0⟩ ∧
     (assets_update none none (some "a1") (some [("junk", jint 3)])
        (some [("id", jstr "a1")]) StoreOutcome.ok
        (some ⟨"a1", jstr "f", jstr "t", jint 1, jstr "u", jstr "pending", 0⟩)
        StoreOutcome.ok StoreOutcome.ok).setCols = [] ∧
     (∀ (d' : Dict) (kv : String × JVal), kv ∈ filterAllowed d' →
       kv.1 ∈ allowed_fields)) :=
  ⟨rfl, by decide, by decide,
   C5_update_rejects_only_unknown_keys none none (some "a1") [("junk", jint 3)]
     (some [("id", jstr "a1")]) StoreOutcome.ok
     (some ⟨"a1", jstr "f", jstr "t", jint 1, jstr "u", jstr "pending", 0⟩)
     StoreOutcome.ok StoreOutcome.ok rfl (by decide) (by decide)⟩

/-
Frame lemmas for the dynamic UPDATE.
-/

theorem foldl_applySet_id (updates : List (String × JVal)) (r : SqlRow) :
    (updates.foldl applySet r).id = r.id := by
  induction updates generalizing r with
  | nil => rfl
  | cons u rest ih =>
      rw [List.foldl_cons, ih]
      simp only [applySet]
      split_ifs <;> rfl

theorem foldl_applySet_created_at (updates : List (String × JVal)) (r : SqlRow) :
    (updates.foldl applySet r).created_at = r.created_at := by
  induction updates generalizing r with
  | nil => rfl
  | cons u rest ih =>
      rw [List.foldl_cons, ih]
      simp only [applySet]
      split_ifs <;> rfl

theorem foldl_applySet_file_name (updates : List (String × JVal)) (r : SqlRow)
    (h : "file_name" ∉ updates.map Prod.fst) :
    (updates.foldl applySet r).file_name = r.file_name := by
  induction updates generalizing r with
  | nil => rfl
  | cons u rest ih =>
      simp only [List.map_cons, List.mem_cons] at h
      push_neg at h
      rw [List.foldl_cons, ih (applySet r u) h.2]
      simp only [applySet]
      split_ifs with h1 h2 h3 h4 h5 <;> first | rfl | exact absurd h1.symm h.1

theorem foldl_applySet_file_type (updates : List (String × JVal)) (r : SqlRow)
    (h : "file_type" ∉ updates.map Prod.fst) :
    (updates.foldl applySet r).file_type = r.file_type := by
  induction updates generalizing r with
  | nil => rfl
  | cons u rest ih =>
      simp only [List.map_cons, List.mem_cons] at h
      push_neg at h
      rw [List.foldl_cons, ih (applySet r u) h.2]
      simp only [applySet]
      split_ifs with h1 h2 h3 h4 h5 <;> first | rfl | exact absurd h2.symm h.1

theorem foldl_applySet_file_size (updates : List (String × JVal)) (r : SqlRow)
    (h : "file_size" ∉ updates.map Prod.fst) :
    (updates.foldl applySet r).file_size = r.file_size := by
  induction updates generalizing r with
  | nil => rfl
  | cons u rest ih =>
      simp only [List.map_cons, List.mem_cons] at h
      push_neg at h
      rw [List.foldl_cons, ih (applySet r u) h.2]
      simp only [applySet]
      split_ifs with h1 h2 h3 h4 h5 <;> first | rfl | exact absurd h3.symm h.1

theorem foldl_applySet_blob_url (updates : List (String × JVal)) (r : SqlRow)
    (h : "blob_url" ∉ updates.map Prod.fst) :
    (updates.foldl applySet r).blob_url = r.blob_url := by
  induction updates generalizing r with
  | nil => rfl
  | cons u rest ih =>
      simp only [List.map_cons, List.mem_cons] at h
      push_neg at h
      rw [List.foldl_cons, ih (applySet r u) h.2]
      simp only [applySet]
      split_ifs with h1 h2 h3 h4 h5 <;> first | rfl | exact absurd h4.symm h.1

theorem foldl_applySet_status (updates : List (String × JVal)) (r : SqlRow)
    (h : "status" ∉ updates.map Prod.fst) :
    (updates.foldl applySet r).status = r.status := by
  induction updates generalizing r with
  | nil => rfl
  | cons u rest ih =>
      simp only [List.map_cons, List.mem_cons] at h
      push_neg at h
      rw [List.foldl_cons, ih (applySet r u) h.2]
      simp only [applySet]
      split_ifs with h1 h2 h3 h4 h5 <;> first | rfl | exact absurd h5.symm h.1

theorem sqlUpdatesFor_status (v : JVal) :
    sqlUpdatesFor [("status", v)] = [("status", v)] := rfl

theorem applySet_status_eq (r : SqlRow) (v : JVal) :
    applySet r ("status", v) = { r with status := v } := rfl

/-- Every SET item of the dynamic UPDATE is the mapped column of one
accepted field, carrying that field's value. -/
theorem sqlUpdatesFor_sound (fields : Dict) (cu : String × JVal)
    (hcu : cu ∈ sqlUpdatesFor fields) :
    ∃ kv ∈ fields,
      (field_mapping.lookup kv.1 = some cu.1 ∨ (kv.1 = "status" ∧ cu.1 = "status")) ∧
      cu.2 = kv.2 := by
  rw [sqlUpdatesFor, List.mem_filterMap] at hcu
  obtain ⟨kv, hkv, hf⟩ := hcu
  cases hl : field_mapping.lookup kv.1 with
  | some col =>
      rw [hl] at hf
      refine ⟨kv, hkv, ?_, ?_⟩
      · left
        rw [hl]
        cases hf
        rfl
      · cases hf
        rfl
  | none =>
      rw [hl] at hf
      by_cases hs : kv.1 = "status"
      · rw [if_pos hs] at hf
        refine ⟨kv, hkv, ?_, ?_⟩
        · right
          cases hf
          exact ⟨hs, rfl⟩
        · cases hf
          rfl
      · rw [if_neg hs] at hf
        cases hf

/-- Claim C6: a successful update sets only the columns mapped from the accepted
allow-listed fields: a body whose accepted fields are exactly
`{status: v}` yields a SET list of just the `status` column and a row
changed only in `status`; the `id` and `created_at` columns are never
modified by any update; every SET column comes from an accepted field;
and any column whose name is absent from the SET list is unchanged. -/
theorem C6_update_sets_only_mapped_columns
    (configured api_key : Option String) (asset_id : Option String) (d : Dict)
    (cosmosDoc : Option Dict) (cosmosOut : StoreOutcome) (r : SqlRow)
    (readBackOut : StoreOutcome) (v : JVal)
    (hauth : validate_api_key configured api_key = true)
    (hid : truthyStrOpt asset_id = true)
    (hstatus : filterAllowed d = [("status", v)]) :
    (assets_update configured api_key asset_id (some d) cosmosDoc cosmosOut
        (some r) StoreOutcome.ok readBackOut).status = 200 ∧
    (assets_update configured api_key asset_id (some d) cosmosDoc cosmosOut
        (some r) StoreOutcome.ok readBackOut).setCols = ["status"] ∧
    (assets_update configured api_key asset_id (some d) cosmosDoc cosmosOut
        (some r) StoreOutcome.ok readBackOut).rowAfter = some { r with status := v } ∧
    (∀ (d' : Dict) (r' : SqlRow),
      (runUpdate r' (filterAllowed d')).id = r'.id ∧
      (runUpdate r' (filterAllowed d')).created_at = r'.created_at) ∧
    (∀ (d' : Dict) (cu : String × JVal), cu ∈ sqlUpdatesFor (filterAllowed d') →
      ∃ kv ∈ filterAllowed d',
        (field_mapping.lookup kv.1 = some cu.1 ∨ (kv.1 = "status" ∧ cu.1 = "status")) ∧
        cu.2 = kv.2) ∧
    (∀ (updates : List (String × JVal)) (r' : SqlRow),
      ("file_name" ∉ updates.map Prod.fst →
        (updates.foldl applySet r').file_name = r'.file_name) ∧
      ("file_type" ∉ updates.map Prod.fst →
        (updates.foldl applySet r').file_type = r'.file_type) ∧
      ("file_size" ∉ updates.map Prod.fst →
        (updates.foldl applySet r').file_size = r'.file_size) ∧
      ("blob_url" ∉ updates.map Prod.fst →
        (updates.foldl applySet r').blob_url = r'.blob_url) ∧
      ("status" ∉ updates.map Prod.fst →
        (updates.foldl applySet r').status = r'.status)) := by
  refine ⟨?_, ?_, ?_,
    fun d' r' => ⟨foldl_applySet_id _ r', foldl_applySet_created_at _ r'⟩,
    fun d' cu hcu => sqlUpdatesFor_sound _ cu hcu,
    fun updates r' =>
      ⟨foldl_applySet_file_name updates r', foldl_applySet_file_type updates r',
       foldl_applySet_file_size updates r', foldl_applySet_blob_url updates r',
       foldl_applySet_status updates r'⟩⟩ <;>
    simp [assets_update, hauth, hid, hstatus, sqlUpdatesFor_status, applySet_status_eq]

/-- Witness for claim C6: a body `{status: "done", junk: 3}` is accepted as exactly
`{status: "done"}` and changes only the status column of the row. -/
theorem C6_update_sets_only_mapped_columns_witness :
    validate_api_key none none = true ∧
    truthyStrOpt (some "a1") = true ∧
    filterAllowed [("status", jstr "done"), ("junk", jint 3)] = [("status", jstr "done")] ∧
    ((assets_update none none (some "a1")
        (some [("status", jstr "done"), ("junk", jint 3)]) none StoreOutcome.ok
        (some ⟨"a1", jstr "f", jstr "t", jint 1, jstr "u", jstr "pending", 0⟩)
        StoreOutcome.ok StoreOutcome.ok).status = 200 ∧
     (assets_update none none (some "a1")
        (some [("status", jstr "done"), ("junk", jint 3)]) none StoreOutcome.ok
        (some ⟨"a1", jstr "f", jstr "t", jint 1, jstr "u", jstr "pending", 0⟩)
        StoreOutcome.ok StoreOutcome.ok).setCols = ["status"] ∧
     (assets_update none none (some "a1")
        (some [("status", jstr "done"), ("junk", jint 3)]) none StoreOutcome.ok
        (some ⟨"a1", jstr "f", jstr "t", jint 1, jstr "u", jstr "pending", 0⟩)
        StoreOutcome.ok StoreOutcome.ok).rowAfter
       = some { (⟨"a1", jstr "f", jstr "t", jint 1, jstr "u", jstr "pending", 0⟩
           : SqlRow) with status := jstr "done" } ∧
     (∀ (d' : Dict) (r' : SqlRow),
       (runUpdate r' (filterAllowed d')).id = r'.id ∧
       (runUpdate r' (filterAllowed d')).created_at = r'.created_at) ∧
     (∀ (d' : Dict) (cu : String × JVal), cu ∈ sqlUpdatesFor (filterAllowed d') →
       ∃ kv ∈ filterAllowed d',
         (field_mapping.lookup kv.1 = some cu.1 ∨ (kv.1 = "status" ∧ cu.1 = "status")) ∧
         cu.2 = kv.2) ∧
     (∀ (updates : List (String × JVal)) (r' : SqlRow),
       ("file_name" ∉ updates.map Prod.fst →
         (updates.foldl applySet r').file_name = r'.file_name) ∧
       ("file_type" ∉ updates.map Prod.fst →
         (updates.foldl applySet r').file_type = r'.file_type) ∧
       ("file_size" ∉ updates.map Prod.fst →
         (updates.foldl applySet r').file_size = r'.file_size) ∧
       ("blob_url" ∉ updates.map Prod.fst →
         (updates.foldl applySet r').blob_url = r'.blob_url) ∧
       ("status" ∉ updates.map Prod.fst →
         (updates.foldl applySet r').status = r'.status))) :=
  ⟨rfl, by decide, by decide,
   C6_update_sets_only_mapped_columns none none (some "a1")
     [("status", jstr "done"), ("junk", jint 3)] none StoreOutcome.ok
     ⟨"a1", jstr "f", jstr "t", jint 1, jstr "u", jstr "pending", 0⟩
     StoreOutcome.ok (jstr "done") rfl (by decide) (by decide)⟩
